import Mathlib

/-!
Verification of the GeoPlot visualization tool (`geoplot.py`).

The tool converts a simulation state trajectory into a list of GeoJSON
FeatureCollections (one per entity) and an HTML page obtained by
substituting five placeholders into a fixed CesiumJS template.

Embedding notes:
* A `State` of the trajectory is modelled by the two values that
  `read_var` resolves on it for the configured `coordinates` and
  `feature` paths (`SimState.coordVal` / `SimState.featVal`); path
  resolution itself (`get_by_path`) is not claimed and is bypassed.
* `numpy` values are nested arrays (`NpArray`); `.flatten().tolist()`
  is depth-first flattening, matching row-major order.
* Python `IndexError` (indexing `[-1]` on an empty episode, `coord[1]`,
  `value_list[i]`) is modelled by `Option`: any failing index makes the
  whole render `none`.
* Timestamps are integers: the wall-clock start instant plus
  `i * step_time` seconds; the ISO-8601 rendering of a timestamp is kept
  abstract as the constructor `PropVal.timeStr`.
* The HTML template is embedded verbatim as a list of literal/placeholder
  pieces (the tokenization `string.Template` performs on it), and
  substitution concatenates pieces with placeholders replaced.
-/

/-- A nested (numpy-like) array of scalars of type `α`. -/
inductive NpArray (α : Type) where
  | scalar : α → NpArray α
  | arr : List (NpArray α) → NpArray α

mutual

/-- `np.array(v).flatten().tolist()`: depth-first flattening of a nested
array to a flat list of scalars (row-major order). -/
def NpArray.flatten {α : Type} : NpArray α → List α
  | .scalar a => [a]
  | .arr xs => NpArray.flattenList xs

/-- Flattening of a list of nested arrays, in order. -/
def NpArray.flattenList {α : Type} : List (NpArray α) → List α
  | [] => []
  | x :: xs => NpArray.flatten x ++ NpArray.flattenList xs

end

/-- A state snapshot, modelled by the values that `read_var` resolves on it:
`coordVal` is the value at the configured `coordinates` path, as the nested
list `np.array(...).tolist()` returns (one `[x, y]`-like inner list per
entity); `featVal` is the value at the configured `feature` path. -/
structure SimState (α : Type) where
  coordVal : List (List α)
  featVal : NpArray α

/-- `config["simulation_metadata"]`. -/
structure SimulationMetadata where
  name : String
  num_episodes : ℕ
  num_steps_per_episode : ℕ

/-- The configuration object passed to `GeoPlot.__init__`. -/
structure Config where
  simulation_metadata : SimulationMetadata

/-- The `GeoPlot` object: the configuration together with the five
visualization options unpacked in `GeoPlot.__init__`. -/
structure GeoPlot where
  config : Config
  cesium_token : String
  step_time : ℤ
  entity_position : String
  entity_property : String
  visualization_type : String

/-- The extraction loop body of `GeoPlot.render`, iterated over the episodes
it visits: `final_state = state_trajectory[i][-1]` (an empty episode raises
`IndexError`, modelled as `none`), `coords` is overwritten with the state's
coordinate value, and the flattened feature value is appended to `values`.
`acc` is the current `(coords, values)` pair. -/
def extractGo {α : Type} (acc : List (List α) × List (List α)) :
    List (List (SimState α)) → Option (List (List α) × List (List α))
  | [] => some acc
  | ep :: rest =>
    match ep.getLast? with
    | none => none
    | some s => extractGo (s.coordVal, acc.2 ++ [s.featVal.flatten]) rest

/-- The extraction stage of `GeoPlot.render`: starting from
`coords, values = [], []`, run the loop `for i in range(0, len(state_trajectory) - 1)`,
i.e. over all episodes but the last. -/
def extractLoop {α : Type} (state_trajectory : List (List (SimState α))) :
    Option (List (List α) × List (List α)) :=
  extractGo ([], []) (state_trajectory.take (state_trajectory.length - 1))

/-- The generated timestamps: `start_time + pd.Timedelta(seconds=i * step_time)`
for `i in range(count)`, in seconds since an arbitrary epoch. -/
def genTimestamps (start step_time : ℤ) (count : ℕ) : List ℤ :=
  (List.range count).map fun (i : ℕ) => start + (i : ℤ) * step_time

/-- A value stored under a key of a Feature's `properties` object: either the
scalar `value` or the ISO-8601 rendering `time.isoformat()` of a timestamp. -/
inductive PropVal (α : Type) where
  | value : α → PropVal α
  | timeStr : ℤ → PropVal α
deriving DecidableEq

/-- A GeoJSON geometry object `{"type": "Point", "coordinates": [...]}`. -/
structure Geometry (α : Type) where
  type : String
  coordinates : List α
deriving DecidableEq

/-- A GeoJSON Feature as built by `GeoPlot.render`. -/
structure Feature (α : Type) where
  type : String
  geometry : Geometry α
  properties : List (String × PropVal α)
deriving DecidableEq

/-- A GeoJSON FeatureCollection as built by `GeoPlot.render`. -/
structure FeatureCollection (α : Type) where
  type : String
  features : List (Feature α)
deriving DecidableEq

/-- One Feature of the inner loop of `GeoPlot.render`: geometry coordinates
`[coord[1], coord[0]]` and properties `{"value": value_list[i], "time":
time.isoformat()}`; a missing index raises `IndexError` (`none`). -/
def mkFeature {α : Type} (coord : List α) (i : ℕ) (t : ℤ) (value_list : List α) :
    Option (Feature α) := do
  let c1 ← coord[1]?
  let c0 ← coord[0]?
  let v ← value_list[i]?
  some { type := "Feature",
         geometry := { type := "Point", coordinates := [c1, c0] },
         properties := [("value", PropVal.value v), ("time", PropVal.timeStr t)] }

/-- The inner loop of `GeoPlot.render`: `for time, value_list in
zip(timestamps, values)`, appending one Feature per pair for entity `i`. -/
def buildRow {α : Type} (coord : List α) (i : ℕ) :
    List (ℤ × List α) → Option (List (Feature α))
  | [] => some []
  | (t, vl) :: rest => do
    let f ← mkFeature coord i t vl
    let fs ← buildRow coord i rest
    some (f :: fs)

/-- The outer loop of `GeoPlot.render`: `for i, coord in enumerate(coords)`,
appending one FeatureCollection per entity. `i` is the current index. -/
def buildCols {α : Type} (values : List (List α)) (timestamps : List ℤ) :
    ℕ → List (List α) → Option (List (FeatureCollection α))
  | _, [] => some []
  | i, coord :: rest => do
    let feats ← buildRow coord i (timestamps.zip values)
    let cols ← buildCols values timestamps (i + 1) rest
    some ({ type := "FeatureCollection", features := feats } :: cols)

/-- The number of generated timestamps:
`config["simulation_metadata"]["num_episodes"] * config["simulation_metadata"]["num_steps_per_episode"]`. -/
def timestampCount (g : GeoPlot) : ℕ :=
  g.config.simulation_metadata.num_episodes *
    g.config.simulation_metadata.num_steps_per_episode

/-- The GeoJSON pipeline of `GeoPlot.render`: extraction, timestamp
generation, feature building. `start` is the wall-clock instant
`pd.Timestamp.utcnow()` captured at the call. The list returned is the
content written to `{name}.geojson` (and serialized into the HTML's `$data`
placeholder); file writing itself is outside the embedding. -/
def GeoPlot.render {α : Type} (g : GeoPlot) (start : ℤ)
    (state_trajectory : List (List (SimState α))) :
    Option (List (FeatureCollection α)) := do
  let (coords, values) ← extractLoop state_trajectory
  let timestamps := genTimestamps start g.step_time (timestampCount g)
  buildCols values timestamps 0 coords

/-- One piece of the HTML template as `string.Template` tokenizes it: a run
of literal text, or a `$name` placeholder. -/
inductive TPiece where
  | lit : String → TPiece
  | hole : String → TPiece

/-- Template text of piece 0 before the access-token assignment. -/
def tmplLit0Pre : String :=
  "\n<!doctype html>\n<html lang=\"en\">\n  <head>\n    <meta charset=\"UTF-8\" />\n    <meta name=\"viewport\" content=\"width=device-width, initial-scale=1.0\" />\n    <title>Cesium Time-Series Heatmap Visualization</title>\n    <script src=\"https://cesium.com/downloads/cesiumjs/releases/1.95/Build/Cesium/Cesium.js\"></script>\n    <link href=\"https://cesium.com/downloads/cesiumjs/releases/1.95/Build/Cesium/Widgets/widgets.css\" rel=\"stylesheet\" />\n    <style>#cesiumContainer \x7b width: 100%; height: 100%; \x7d</style>\n  </head>\n  <body>\n    <div id=\"cesiumContainer\"></div>\n    <script>\n      "

/-- Literal template text between placeholders (piece 0), ending in the access-token assignment up to its opening quote. -/
def tmplLit0 : String :=
  tmplLit0Pre ++ "Cesium.Ion.defaultAccessToken = '"

/-- Template text of piece 1 between the close of the access-token assignment and the alpha assignment. -/
def tmplLit1Mid : String :=
  "\n      const viewer = new Cesium.Viewer('cesiumContainer');\n\n      function interpolateColor(color1, color2, factor) \x7b\n        const result = new Cesium.Color();\n        result.red = color1.red + factor * (color2.red - color1.red);\n        result.green = color1.green + factor * (color2.green - color1.green);\n        result.blue = color1.blue + factor * (color2.blue - color1.blue);\n        "

/-- Literal template text between placeholders (piece 1): the quote and semicolon closing the access-token assignment, then the script up to the alpha assignment's opening quote. -/
def tmplLit1 : String :=
  "';" ++ tmplLit1Mid ++ "result.alpha = '"

/-- Template text of piece 2 after the alpha assignment. -/
def tmplLit2Post : String :=
  "\n        return result;\n      \x7d\n\n      function getColor(value, min, max) \x7b\n        const factor = (value - min) / (max - min);\n        return interpolateColor(Cesium.Color.BLUE, Cesium.Color.RED, factor);\n      \x7d\n\n      function getPixelSize(value, min, max) \x7b\n        const factor = (value - min) / (max - min);\n        return 100 * (1 + factor);\n      \x7d\n\n      function processTimeSeriesData(geoJsonData) \x7b\n        const timeSeriesMap = new Map();\n        let minValue = Infinity;\n        let maxValue = -Infinity;\n\n        geoJsonData.features.forEach((feature) => \x7b\n          const id = feature.properties.id;\n          const time = Cesium.JulianDate.fromIso8601(feature.properties.time);\n          const value = feature.properties.value;\n          const coordinates = feature.geometry.coordinates;\n\n          if (!timeSeriesMap.has(id)) \x7b\n            timeSeriesMap.set(id, []);\n          \x7d\n          timeSeriesMap.get(id).push(\x7b time, value, coordinates \x7d);\n\n          minValue = Math.min(minValue, value);\n          maxValue = Math.max(maxValue, value);\n        \x7d);\n\n        return \x7b timeSeriesMap, minValue, maxValue \x7d;\n      \x7d\n\n      function createTimeSeriesEntities(timeSeriesData, startTime, stopTime) \x7b\n        const dataSource = new Cesium.CustomDataSource('AgentTorch Simulation');\n\n        for (const [id, timeSeries] of timeSeriesData.timeSeriesMap) \x7b\n          const entity = new Cesium.Entity(\x7b\n            id: id,\n            availability: new Cesium.TimeIntervalCollection([\n              new Cesium.TimeInterval(\x7b start: startTime, stop: stopTime \x7d),\n            ]),\n            position: new Cesium.SampledPositionProperty(),\n            point: \x7b\n              pixelSize: '"

/-- Literal template text between placeholders (piece 2): the tail of the alpha assignment, then the script up to the next placeholder. -/
def tmplLit2 : String :=
  "' == 'size' ? 0.2 : color1.alpha + factor * (color2.alpha - color1.alpha);" ++ tmplLit2Post

/-- Literal template text between placeholders (piece 3). -/
def tmplLit3 : String :=
  "' == 'size' ? new Cesium.SampledProperty(Number) : 10,\n              color: new Cesium.SampledProperty(Cesium.Color),\n            \x7d,\n            properties: \x7b\n              value: new Cesium.SampledProperty(Number),\n            \x7d,\n          \x7d);\n\n          timeSeries.forEach((\x7b time, value, coordinates \x7d) => \x7b\n            const position = Cesium.Cartesian3.fromDegrees(coordinates[0], coordinates[1]);\n            entity.position.addSample(time, position);\n            entity.properties.value.addSample(time, value);\n            entity.point.color.addSample(time, getColor(value, timeSeriesData.minValue, timeSeriesData.maxValue));\n            if ('"

/-- Literal template text between placeholders (piece 4). -/
def tmplLit4 : String :=
  "' == 'size') \x7b\n              entity.point.pixelSize.addSample(time, getPixelSize(value, timeSeriesData.minValue, timeSeriesData.maxValue));\n            \x7d\n          \x7d);\n\n          dataSource.entities.add(entity);\n        \x7d\n\n        return dataSource;\n      \x7d\n\n      const geoJsons = "

/-- Literal template text between placeholders (piece 5). -/
def tmplLit5 : String :=
  ";\n      const start = Cesium.JulianDate.fromIso8601('"

/-- Literal template text between placeholders (piece 6). -/
def tmplLit6 : String :=
  "');\n      const stop = Cesium.JulianDate.fromIso8601('"

/-- Literal template text between placeholders (piece 7). -/
def tmplLit7 : String :=
  "');\n\n      viewer.clock.startTime = start.clone();\n      viewer.clock.stopTime = stop.clone();\n      viewer.clock.currentTime = start.clone();\n      viewer.clock.clockRange = Cesium.ClockRange.LOOP_STOP;\n      viewer.clock.multiplier = 3600; // 1 hour per second\n\n      viewer.timeline.zoomTo(start, stop);\n\n      for (const geoJsonData of geoJsons) \x7b\n        const timeSeriesData = processTimeSeriesData(geoJsonData);\n        const dataSource = createTimeSeriesEntities(timeSeriesData, start, stop);\n        viewer.dataSources.add(dataSource);\n        viewer.zoomTo(dataSource);\n      \x7d\n    </script>\n  </body>\n</html>\n"

/-- The `geoplot_template` string of `geoplot.py`, tokenized as
`string.Template` reads it: literal runs split at the `$name`
placeholders. -/
def geoplot_template : List TPiece :=
  [TPiece.lit tmplLit0,
   TPiece.hole "accessToken",
   TPiece.lit tmplLit1,
   TPiece.hole "visualType",
   TPiece.lit tmplLit2,
   TPiece.hole "visualType",
   TPiece.lit tmplLit3,
   TPiece.hole "visualType",
   TPiece.lit tmplLit4,
   TPiece.hole "data",
   TPiece.lit tmplLit5,
   TPiece.hole "startTime",
   TPiece.lit tmplLit6,
   TPiece.hole "stopTime",
   TPiece.lit tmplLit7]

/-- `Template(...).substitute(mapping)`: concatenate the pieces, replacing
each placeholder by the mapping's value for its name. -/
def substituteTemplate (pieces : List TPiece) (m : String → String) : String :=
  pieces.foldl
    (fun acc p => acc ++ match p with | TPiece.lit s => s | TPiece.hole name => m name) ""

/-- The HTML document `GeoPlot.render` writes: `geoplot_template` with the
five placeholders substituted. The arguments are the five strings of the
mapping passed to `tmpl.substitute` (`cesium_token`, `timestamps[0].isoformat()`,
`timestamps[-1].isoformat()`, `json.dumps(geojsons)`, `visualization_type`);
the template holds no placeholder outside these five names, so the fallback
branch is never taken. -/
def renderHtml (accessToken startTime stopTime data visualType : String) : String :=
  substituteTemplate geoplot_template fun name =>
    if name = "accessToken" then accessToken
    else if name = "startTime" then startTime
    else if name = "stopTime" then stopTime
    else if name = "data" then data
    else if name = "visualType" then visualType
    else ""

/-- The alpha channel computed by the embedded script's `interpolateColor`
after substitution: `result.alpha = '<visualType>' == 'size' ? 0.2 :
color1.alpha + factor * (color2.alpha - color1.alpha);` — JavaScript `==`
on two string literals is string equality. Colors are modelled over `ℚ`. -/
def interpolateColorAlpha (visualType : String) (alpha1 alpha2 factor : ℚ) : ℚ :=
  if visualType = "size" then 0.2 else alpha1 + factor * (alpha2 - alpha1)

/-! ### Concrete inputs

The end-to-end scenario of the specification (§8, property 6): three
episodes of one state each, two entities, `step_time = 60`,
`num_episodes = 3`, `num_steps_per_episode = 1`. Scalars are rationals so
that the float literals of the scenario are represented exactly. -/

/-- The scenario's configuration. -/
def cfgScenario : Config :=
  { simulation_metadata :=
    { name := "sim", num_episodes := 3, num_steps_per_episode := 1 } }

/-- The scenario's `GeoPlot` object. -/
def geoPlotScenario : GeoPlot :=
  { config := cfgScenario
    cesium_token := "token"
    step_time := 60
    entity_position := "agents/consumers/coordinates"
    entity_property := "agents/consumers/money_spent"
    visualization_type := "color" }

/-- Episode 0's single state: coordinates `[[10.0, 20.0], [30.0, 40.0]]`,
feature `[1, 2]`. -/
def stateEp0 : SimState ℚ :=
  { coordVal := [[10, 20], [30, 40]]
    featVal := NpArray.arr [NpArray.scalar 1, NpArray.scalar 2] }

/-- Episode 1's single state: coordinates `[[11.0, 21.0], [31.0, 41.0]]`,
feature `[3, 4]`. -/
def stateEp1 : SimState ℚ :=
  { coordVal := [[11, 21], [31, 41]]
    featVal := NpArray.arr [NpArray.scalar 3, NpArray.scalar 4] }

/-- Episode 2's single state (never read by the extraction loop). -/
def stateEp2 : SimState ℚ :=
  { coordVal := [[99, 99], [99, 99]]
    featVal := NpArray.arr [NpArray.scalar 99, NpArray.scalar 99] }

/-- The scenario's trajectory: three episodes of one state each. -/
def trajScenario : List (List (SimState ℚ)) := [[stateEp0], [stateEp1], [stateEp2]]

/-- A state whose flattened feature value (`[5, 6]`, length 2) is longer
than its entity count (one coordinate pair): used for the shape-mismatch
analysis. -/
def stateWide : SimState ℚ :=
  { coordVal := [[10, 20]]
    featVal := NpArray.arr [NpArray.scalar 5, NpArray.scalar 6] }

/-- A state whose flattened feature value (`[7]`, length 1) is shorter than
its entity count (two coordinate pairs): used for the shape-mismatch
analysis. -/
def stateNarrow : SimState ℚ :=
  { coordVal := [[10, 20], [30, 40]]
    featVal := NpArray.arr [NpArray.scalar 7] }

/-- The FeatureCollections `GeoPlot.render` produces on the scenario:
coordinates from episode 1 (the second-to-last), values accumulated from
episodes 0 and 1, timestamps `0` and `60` (the third timestamp, `120`, is
dropped by the zip). -/
def gjScenario : List (FeatureCollection ℚ) :=
  [ { type := "FeatureCollection",
      features := [
        { type := "Feature",
          geometry := { type := "Point", coordinates := [21, 11] },
          properties := [("value", PropVal.value 1), ("time", PropVal.timeStr 0)] },
        { type := "Feature",
          geometry := { type := "Point", coordinates := [21, 11] },
          properties := [("value", PropVal.value 3), ("time", PropVal.timeStr 60)] }] },
    { type := "FeatureCollection",
      features := [
        { type := "Feature",
          geometry := { type := "Point", coordinates := [41, 31] },
          properties := [("value", PropVal.value 2), ("time", PropVal.timeStr 0)] },
        { type := "Feature",
          geometry := { type := "Point", coordinates := [41, 31] },
          properties := [("value", PropVal.value 4), ("time", PropVal.timeStr 60)] }] }]

/-! ### Lemmas about the extraction stage -/

/-- Running the extraction loop over episodes that all have a last state
yields: the last visited state's coordinate value (or the accumulator's if
nothing is visited), and the accumulated flattened feature values, one per
episode, in order. -/
theorem extractGo_spec {α : Type} :
    ∀ (eps : List (List (SimState α))) (acc : List (List α) × List (List α)),
      (∀ ep ∈ eps, ep ≠ []) →
      extractGo acc eps = some
        (((eps.filterMap List.getLast?).map SimState.coordVal).getLastD acc.1,
          acc.2 ++ (eps.filterMap List.getLast?).map fun s => s.featVal.flatten) := by
  intro eps
  induction eps with
  | nil => intro acc _; simp [extractGo]
  | cons ep rest ih =>
    intro acc hne
    obtain ⟨s, hs⟩ := Option.isSome_iff_exists.mp
      (List.getLast?_isSome.mpr (hne ep (List.mem_cons_self ep rest)))
    have h := ih (s.coordVal, acc.2 ++ [s.featVal.flatten])
      fun e he => hne e (List.mem_cons_of_mem _ he)
    simp only [extractGo, hs, h, List.filterMap_cons, List.map_cons,
      List.getLastD_cons, List.append_assoc, List.singleton_append]

/-- Taking last elements through `filterMap` of nonempty lists gives the
last element of the last list. -/
theorem getLast?_filterMap_getLast? {β : Type} :
    ∀ (eps : List (List β)), (∀ ep ∈ eps, ep ≠ []) →
      (eps.filterMap List.getLast?).getLast? = eps.getLast?.bind List.getLast? := by
  intro eps
  induction eps with
  | nil => simp
  | cons ep rest ih =>
    intro hne
    obtain ⟨s, hs⟩ := Option.isSome_iff_exists.mp
      (List.getLast?_isSome.mpr (hne ep (List.mem_cons_self ep rest)))
    have hrest := ih fun e he => hne e (List.mem_cons_of_mem _ he)
    cases rest with
    | nil => simp [hs]
    | cons r rs =>
      obtain ⟨sr, hsr⟩ := Option.isSome_iff_exists.mp
        (List.getLast?_isSome.mpr
          (hne r (List.mem_cons_of_mem _ (List.mem_cons_self r rs))))
      simp only [List.filterMap_cons, hs, hsr] at hrest ⊢
      rw [List.getLast?_cons_cons, hrest, List.getLast?_cons_cons]

/-- `filterMap List.getLast?` over nonempty lists drops nothing. -/
theorem length_filterMap_getLast? {β : Type} :
    ∀ (eps : List (List β)), (∀ ep ∈ eps, ep ≠ []) →
      (eps.filterMap List.getLast?).length = eps.length := by
  intro eps
  induction eps with
  | nil => simp
  | cons ep rest ih =>
    intro hne
    obtain ⟨s, hs⟩ := Option.isSome_iff_exists.mp
      (List.getLast?_isSome.mpr (hne ep (List.mem_cons_self ep rest)))
    simp [List.filterMap_cons, hs, ih fun e he => hne e (List.mem_cons_of_mem _ he)]

/-- The extraction loop fails (Python `IndexError` on `[-1]`) as soon as it
reaches an empty episode. -/
theorem extractGo_none_of_mem_nil {α : Type} :
    ∀ (eps : List (List (SimState α)))
      (acc : List (List α) × List (List α)),
      [] ∈ eps → extractGo acc eps = none := by
  intro eps
  induction eps with
  | nil => intro acc h; simp at h
  | cons ep rest ih =>
    intro acc h
    rcases List.mem_cons.mp h with h | h
    · simp [extractGo, ← h]
    · cases hs : ep.getLast? with
      | none => simp [extractGo, hs]
      | some s => simp [extractGo, hs, ih _ h]

/-! ### Claim theorems -/

/-- C2: on a trajectory of at least two episodes whose visited episodes are
all nonempty, the extraction stage visits exactly the episodes at indices
`0 .. len - 2` (changing the last episode never changes the result), reads
only each visited episode's last state, ends with `coords` equal to the
coordinate value of the second-to-last episode's last state, and produces
one flattened feature entry per visited episode, in episode order. -/
theorem extraction_visits_all_but_last {α : Type}
    (traj : List (List (SimState α)))
    (h2 : 2 ≤ traj.length)
    (hne : ∀ ep ∈ traj.take (traj.length - 1), ep ≠ [])
    (ep : List (SimState α)) (s : SimState α)
    (hep : traj[traj.length - 2]? = some ep)
    (hs : ep.getLast? = some s) :
    extractLoop traj =
      some (s.coordVal,
        ((traj.take (traj.length - 1)).filterMap List.getLast?).map
          fun t => t.featVal.flatten) ∧
    ((traj.take (traj.length - 1)).filterMap List.getLast?).length =
      traj.length - 1 ∧
    ∀ ep' : List (SimState α),
      extractLoop (traj.dropLast ++ [ep']) = extractLoop traj := by
  have hlenv : (traj.take (traj.length - 1)).length = traj.length - 1 := by
    rw [List.length_take]; omega
  have hgl : (traj.take (traj.length - 1)).getLast? = some ep := by
    rw [List.getLast?_eq_getElem?, hlenv, List.getElem?_take]
    have h1 : traj.length - 1 - 1 = traj.length - 2 := by omega
    simp only [h1]
    rw [if_pos (by omega), hep]
  refine ⟨?_, ?_, ?_⟩
  · rw [extractLoop, extractGo_spec _ _ hne]
    rw [List.getLastD_eq_getLast?, List.getLast?_map,
      getLast?_filterMap_getLast? _ hne, hgl]
    simp [hs]
  · rw [length_filterMap_getLast? _ hne, hlenv]
  · intro ep'
    have hd : traj.dropLast = traj.take (traj.length - 1) := List.dropLast_eq_take traj
    rw [extractLoop, extractLoop, ← hd]
    congr 1
    rw [List.length_append, List.length_dropLast, List.length_singleton]
    have h1 : traj.length - 1 + 1 - 1 = traj.dropLast.length := by
      rw [List.length_dropLast]; omega
    rw [h1, List.take_left]

/-- Witness for `extraction_visits_all_but_last`: the scenario trajectory,
whose second-to-last episode is episode 1. -/
theorem extraction_visits_all_but_last_witness :
    extractLoop trajScenario =
      some (stateEp1.coordVal,
        ((trajScenario.take (trajScenario.length - 1)).filterMap List.getLast?).map
          fun t => t.featVal.flatten) ∧
    extractLoop (trajScenario.dropLast ++ [[stateEp0]]) = extractLoop trajScenario := by
  have h := extraction_visits_all_but_last trajScenario (by decide)
    (by intro e he
        have h2 : e = [stateEp0] ∨ e = [stateEp1] := by simpa [trajScenario] using he
        rcases h2 with rfl | rfl <;> simp)
    [stateEp1] stateEp1 rfl rfl
  exact ⟨h.1, h.2.2 [stateEp0]⟩

/-- C1: the end-to-end scenario. Three episodes of one state each,
coordinates `[[10, 20], [30, 40]]` / `[[11, 21], [31, 41]]` and features
`[1, 2]` / `[3, 4]` in episodes 0 and 1, `step_time = 60`,
`num_episodes = 3`, `num_steps_per_episode = 1`: render produces exactly 2
FeatureCollections, each with exactly 2 Features; the first collection's
geometry coordinates are `[21, 11]` in both of its features, and its
feature values are `1` then `3` in order. -/
theorem render_end_to_end_scenario :
    ∃ gj : List (FeatureCollection ℚ),
      GeoPlot.render geoPlotScenario 0 trajScenario = some gj ∧
      gj.length = 2 ∧
      (∀ fc ∈ gj, fc.features.length = 2) ∧
      ∃ fc0, gj[0]? = some fc0 ∧
        (∀ f ∈ fc0.features, f.geometry.coordinates = [21, 11]) ∧
        fc0.features.map (fun f => f.properties.lookup "value") =
          [some (PropVal.value 1), some (PropVal.value 3)] := by
  refine ⟨gjScenario, by decide, by decide, by decide, ?_⟩
  exact ⟨gjScenario[0], by decide, by decide, by decide⟩

/-- C6 counterexample: a trajectory with zero episodes does not make render
fail; it succeeds and produces an empty list of FeatureCollections. -/
theorem render_empty_trajectory_succeeds :
    GeoPlot.render geoPlotScenario 0 ([] : List (List (SimState ℚ))) = some [] := by
  decide

/-- C6 amended: render has no empty-trajectory guard. With zero episodes it
succeeds and emits zero FeatureCollections; it fails (an index error, not a
dedicated `EmptyTrajectory` failure) only when some visited episode — all
but the last — has zero states. -/
theorem render_empty_trajectory_behavior {α : Type} (g : GeoPlot) (start : ℤ) :
    GeoPlot.render g start ([] : List (List (SimState α))) = some [] ∧
    ∀ traj : List (List (SimState α)),
      [] ∈ traj.take (traj.length - 1) → GeoPlot.render g start traj = none := by
  constructor
  · rfl
  · intro traj hmem
    have h : extractLoop traj = none := extractGo_none_of_mem_nil _ _ hmem
    simp [GeoPlot.render, h]

/-- Witness for `render_empty_trajectory_behavior`: the scenario options,
the empty trajectory, and a two-episode trajectory whose first (visited)
episode has no states. -/
theorem render_empty_trajectory_behavior_witness :
    GeoPlot.render geoPlotScenario 0 ([] : List (List (SimState ℚ))) = some [] ∧
    GeoPlot.render geoPlotScenario 0 [([] : List (SimState ℚ)), [stateEp0]] = none := by
  have h := render_empty_trajectory_behavior (α := ℚ) geoPlotScenario 0
  exact ⟨h.1, h.2 [[], [stateEp0]] (by simp)⟩

/-! ### Lemmas about the feature-building stage -/

/-- `(genTimestamps start st n).length = n`. -/
theorem length_genTimestamps (start st : ℤ) (n : ℕ) :
    (genTimestamps start st n).length = n := by
  rw [genTimestamps, List.length_map, List.length_range]

/-- Characterization of a successful `mkFeature`. -/
theorem mkFeature_eq_some {α : Type} {coord : List α} {i : ℕ} {t : ℤ}
    {vl : List α} {f : Feature α} :
    mkFeature coord i t vl = some f ↔
      ∃ c1 c0 v, coord[1]? = some c1 ∧ coord[0]? = some c0 ∧ vl[i]? = some v ∧
        f = { type := "Feature",
              geometry := { type := "Point", coordinates := [c1, c0] },
              properties := [("value", PropVal.value v),
                             ("time", PropVal.timeStr t)] } := by
  simp only [mkFeature, Option.bind_eq_bind, Option.bind_eq_some, Option.some.injEq]
  constructor
  · rintro ⟨c1, h1, c0, h0, v, hv, rfl⟩
    exact ⟨c1, c0, v, h1, h0, hv, rfl⟩
  · rintro ⟨c1, c0, v, h1, h0, hv, rfl⟩
    exact ⟨c1, h1, c0, h0, v, hv, rfl⟩

/-- What a successful `buildRow` guarantees about the features it emits:
one feature per zipped pair, times in pair order, and each feature shaped
as `mkFeature` builds it. -/
theorem buildRow_spec {α : Type} (coord : List α) (i : ℕ) :
    ∀ (ps : List (ℤ × List α)) (fs : List (Feature α)),
      buildRow coord i ps = some fs →
      fs.length = ps.length ∧
      (fs.map fun f => f.properties.lookup "time") =
        (ps.map fun p => some (PropVal.timeStr p.1)) ∧
      ∀ f ∈ fs,
        f.type = "Feature" ∧
        f.geometry.type = "Point" ∧
        (∃ x y, coord[0]? = some x ∧ coord[1]? = some y ∧
          f.geometry.coordinates = [y, x]) ∧
        f.properties.map Prod.fst = ["value", "time"] ∧
        f.properties.lookup "id" = none := by
  intro ps
  induction ps with
  | nil =>
    intro fs h
    simp only [buildRow, Option.some.injEq] at h
    subst h
    simp
  | cons p rest ih =>
    obtain ⟨t, vl⟩ := p
    intro fs h
    simp only [buildRow, Option.bind_eq_bind, Option.bind_eq_some,
      Option.some.injEq] at h
    obtain ⟨f, hf, fs', hrest, rfl⟩ := h
    obtain ⟨hlen, htime, hfacts⟩ := ih fs' hrest
    obtain ⟨c1, c0, v, h1, h0, hv, rfl⟩ := mkFeature_eq_some.mp hf
    refine ⟨by simp [hlen], by simp [htime, List.lookup], ?_⟩
    intro f hf
    rcases List.mem_cons.mp hf with rfl | hf
    · exact ⟨rfl, rfl, ⟨c0, c1, h0, h1, rfl⟩, by simp, by simp [List.lookup]⟩
    · exact hfacts f hf

/-- What a successful `buildCols` guarantees: one collection per
coordinate, the `k`-th collection built by `buildRow` at entity index
`i + k` from the `k`-th coordinate. -/
theorem buildCols_spec {α : Type} (values : List (List α)) (ts : List ℤ) :
    ∀ (coords : List (List α)) (i : ℕ) (gj : List (FeatureCollection α)),
      buildCols values ts i coords = some gj →
      gj.length = coords.length ∧
      ∀ k fc, gj[k]? = some fc →
        fc.type = "FeatureCollection" ∧
        ∃ coord, coords[k]? = some coord ∧
          buildRow coord (i + k) (ts.zip values) = some fc.features := by
  intro coords
  induction coords with
  | nil =>
    intro i gj h
    simp only [buildCols, Option.some.injEq] at h
    subst h
    simp
  | cons coord rest ih =>
    intro i gj h
    simp only [buildCols, Option.bind_eq_bind, Option.bind_eq_some,
      Option.some.injEq] at h
    obtain ⟨feats, hrow, cols, hcols, rfl⟩ := h
    obtain ⟨hlen, hfacts⟩ := ih (i + 1) cols hcols
    refine ⟨by simp [hlen], ?_⟩
    intro k fc hk
    cases k with
    | zero =>
      simp only [List.getElem?_cons_zero, Option.some.injEq] at hk
      subst hk
      exact ⟨rfl, coord, by simp, by simpa using hrow⟩
    | succ k =>
      simp only [List.getElem?_cons_succ] at hk
      obtain ⟨ht, coord', hc', hrow'⟩ := hfacts k fc hk
      refine ⟨ht, coord', by simpa using hc', ?_⟩
      have : i + 1 + k = i + (k + 1) := by omega
      rwa [this] at hrow'

/-- A successful render factors through `extractLoop` and `buildCols`. -/
theorem render_eq_buildCols {α : Type} {g : GeoPlot} {start : ℤ}
    {traj : List (List (SimState α))} {gj : List (FeatureCollection α)}
    (hr : GeoPlot.render g start traj = some gj) :
    ∃ coords values, extractLoop traj = some (coords, values) ∧
      buildCols values (genTimestamps start g.step_time (timestampCount g))
        0 coords = some gj := by
  cases hx : extractLoop traj with
  | none => rw [GeoPlot.render] at hr; rw [hx] at hr; simp at hr
  | some cv =>
    obtain ⟨coords, values⟩ := cv
    refine ⟨coords, values, rfl, ?_⟩
    rw [GeoPlot.render, hx] at hr
    simpa using hr

/-- C3: a successful render emits exactly one FeatureCollection per entry
of the extracted `coords` (in entity-index order), and every collection
holds exactly `min (values length) (timestamps length)` Features, their
times following the generated timestamp sequence in order. -/
theorem render_counts {α : Type}
    (g : GeoPlot) (start : ℤ) (traj : List (List (SimState α)))
    (coords values : List (List α)) (gj : List (FeatureCollection α))
    (hx : extractLoop traj = some (coords, values))
    (hr : GeoPlot.render g start traj = some gj) :
    gj.length = coords.length ∧
    ∀ fc ∈ gj,
      fc.features.length =
        min values.length
          (genTimestamps start g.step_time (timestampCount g)).length ∧
      (fc.features.map fun f => f.properties.lookup "time") =
        (((genTimestamps start g.step_time (timestampCount g)).zip values).map
          fun p => some (PropVal.timeStr p.1)) := by
  obtain ⟨coords', values', hx', hb⟩ := render_eq_buildCols hr
  rw [hx] at hx'
  obtain ⟨rfl, rfl⟩ : coords = coords' ∧ values = values' := by
    have h := Option.some.inj hx'
    exact ⟨congrArg Prod.fst h, congrArg Prod.snd h⟩
  obtain ⟨hlen, hfacts⟩ := buildCols_spec _ _ _ _ _ hb
  refine ⟨hlen, ?_⟩
  intro fc hfc
  obtain ⟨k, hk⟩ := List.mem_iff_getElem?.mp hfc
  obtain ⟨-, coord, -, hrow⟩ := hfacts k fc hk
  obtain ⟨h1, h2, -⟩ := buildRow_spec coord (0 + k) _ _ hrow
  refine ⟨?_, h2⟩
  rw [h1, List.length_zip]
  omega

/-- Witness for `render_counts`: the scenario input. -/
theorem render_counts_witness :
    gjScenario.length = ([[11, 21], [31, 41]] : List (List ℚ)).length ∧
    ∀ fc ∈ gjScenario,
      fc.features.length =
        min ([[1, 2], [3, 4]] : List (List ℚ)).length
          (genTimestamps 0 geoPlotScenario.step_time
            (timestampCount geoPlotScenario)).length ∧
      (fc.features.map fun f => f.properties.lookup "time") =
        (((genTimestamps 0 geoPlotScenario.step_time
              (timestampCount geoPlotScenario)).zip
            ([[1, 2], [3, 4]] : List (List ℚ))).map
          fun p => some (PropVal.timeStr p.1)) :=
  render_counts geoPlotScenario 0 trajScenario [[11, 21], [31, 41]]
    [[1, 2], [3, 4]] gjScenario (by decide) (by decide)

/-- C4: in a successful render every Feature of entity `k`'s collection has
geometry coordinates `[coords[k][1], coords[k][0]]` — the extracted pair
with its axes swapped — and when the extracted entry is a pair, swapping
the output back recovers it. -/
theorem render_geometry_axis_swap {α : Type}
    (g : GeoPlot) (start : ℤ) (traj : List (List (SimState α)))
    (coords values : List (List α)) (gj : List (FeatureCollection α))
    (hx : extractLoop traj = some (coords, values))
    (hr : GeoPlot.render g start traj = some gj) :
    ∀ (k : ℕ) (fc : FeatureCollection α), gj[k]? = some fc →
      ∃ coord, coords[k]? = some coord ∧
        ∀ f ∈ fc.features,
          ∃ x y, coord[0]? = some x ∧ coord[1]? = some y ∧
            f.geometry.coordinates = [y, x] ∧
            (coord.length = 2 → coord = [x, y]) := by
  obtain ⟨coords', values', hx', hb⟩ := render_eq_buildCols hr
  rw [hx] at hx'
  obtain ⟨rfl, rfl⟩ : coords = coords' ∧ values = values' := by
    have h := Option.some.inj hx'
    exact ⟨congrArg Prod.fst h, congrArg Prod.snd h⟩
  intro k fc hk
  obtain ⟨-, coord, hc, hrow⟩ := (buildCols_spec _ _ _ _ _ hb).2 k fc hk
  refine ⟨coord, hc, ?_⟩
  intro f hf
  obtain ⟨-, -, ⟨x, y, h0, h1, hco⟩, -, -⟩ :=
    (buildRow_spec coord (0 + k) _ _ hrow).2.2 f hf
  refine ⟨x, y, h0, h1, hco, ?_⟩
  intro hlen
  rcases coord with _ | ⟨a, _ | ⟨b, _ | ⟨c, rest⟩⟩⟩
  · simp at hlen
  · simp at hlen
  · simp only [List.getElem?_cons_zero, Option.some.injEq] at h0
    simp only [List.getElem?_cons_succ, List.getElem?_cons_zero,
      Option.some.injEq] at h1
    rw [h0, h1]
  · simp at hlen

/-- Witness for `render_geometry_axis_swap`: the scenario input at entity
index 0. -/
theorem render_geometry_axis_swap_witness :
    ∃ coord, ([[11, 21], [31, 41]] : List (List ℚ))[0]? = some coord ∧
      ∀ f ∈ (gjScenario[0]).features,
        ∃ x y, coord[0]? = some x ∧ coord[1]? = some y ∧
          f.geometry.coordinates = [y, x] ∧
          (coord.length = 2 → coord = [x, y]) :=
  render_geometry_axis_swap geoPlotScenario 0 trajScenario [[11, 21], [31, 41]]
    [[1, 2], [3, 4]] gjScenario (by decide) (by decide) 0 gjScenario[0] (by decide)

/-- C10: every Feature a successful render emits has a properties object
with exactly the keys `value` and `time`, in that order, and no `id` key —
although the embedded script groups features by `feature.properties.id`. -/
theorem render_feature_property_keys {α : Type}
    (g : GeoPlot) (start : ℤ) (traj : List (List (SimState α)))
    (gj : List (FeatureCollection α))
    (hr : GeoPlot.render g start traj = some gj) :
    ∀ fc ∈ gj, ∀ f ∈ fc.features,
      f.properties.map Prod.fst = ["value", "time"] ∧
      f.properties.lookup "id" = none := by
  obtain ⟨coords, values, hx, hb⟩ := render_eq_buildCols hr
  intro fc hfc f hf
  obtain ⟨k, hk⟩ := List.mem_iff_getElem?.mp hfc
  obtain ⟨-, coord, -, hrow⟩ := (buildCols_spec _ _ _ _ _ hb).2 k fc hk
  obtain ⟨-, -, -, hkeys, hid⟩ := (buildRow_spec _ _ _ _ hrow).2.2 f hf
  exact ⟨hkeys, hid⟩

/-- Witness for `render_feature_property_keys`: the scenario input, first
collection, first feature. -/
theorem render_feature_property_keys_witness :
    ((gjScenario[0]).features[0]).properties.map Prod.fst = ["value", "time"] ∧
    ((gjScenario[0]).features[0]).properties.lookup "id" = none :=
  render_feature_property_keys geoPlotScenario 0 trajScenario gjScenario
    (by decide) gjScenario[0] (by decide) (gjScenario[0]).features[0] (by decide)

/-- C5: the generated timestamp sequence has length
`num_episodes * num_steps_per_episode` (read from the configuration alone —
no trajectory is involved), entry `k` equals `start + k * step_time`,
consecutive entries differ by exactly `step_time`, and for positive
`step_time` the sequence is strictly increasing. -/
theorem generated_timestamps_spec (g : GeoPlot) (start : ℤ) :
    (genTimestamps start g.step_time (timestampCount g)).length =
      timestampCount g ∧
    (∀ k : ℕ, k < timestampCount g →
      (genTimestamps start g.step_time (timestampCount g))[k]? =
        some (start + (k : ℤ) * g.step_time)) ∧
    (∀ k : ℕ, k + 1 < timestampCount g →
      ∃ a b,
        (genTimestamps start g.step_time (timestampCount g))[k]? = some a ∧
        (genTimestamps start g.step_time (timestampCount g))[k + 1]? = some b ∧
        b - a = g.step_time) ∧
    (0 < g.step_time →
      List.Sorted (· < ·) (genTimestamps start g.step_time (timestampCount g))) := by
  have hget : ∀ k : ℕ, k < timestampCount g →
      (genTimestamps start g.step_time (timestampCount g))[k]? =
        some (start + (k : ℤ) * g.step_time) := by
    intro k hk
    simp [genTimestamps, List.getElem?_map, List.getElem?_range, hk]
  refine ⟨length_genTimestamps _ _ _, hget, ?_, ?_⟩
  · intro k hk
    refine ⟨start + (k : ℤ) * g.step_time, start + ((k : ℤ) + 1) * g.step_time,
      hget k (by omega), ?_, by ring⟩
    rw [hget (k + 1) hk]
    push_cast
    ring_nf
  · intro hst
    rw [genTimestamps]
    rw [List.Sorted, List.pairwise_map]
    refine (List.pairwise_lt_range _).imp ?_
    intro a b hab
    have : (a : ℤ) < (b : ℤ) := by exact_mod_cast hab
    exact add_lt_add_left (mul_lt_mul_of_pos_right this hst) start

/-! ### Shape-mismatch behavior -/

/-- `mkFeature` fails whenever the value list is too short for the entity
index. -/
theorem mkFeature_none_of_le {α : Type} (coord : List α) (i : ℕ) (t : ℤ)
    (vl : List α) (h : vl.length ≤ i) : mkFeature coord i t vl = none := by
  have hv : vl[i]? = none := List.getElem?_eq_none h
  cases h1 : coord[1]? with
  | none => simp [mkFeature, h1]
  | some c1 =>
    cases h0 : coord[0]? with
    | none => simp [mkFeature, h1, h0]
    | some c0 => simp [mkFeature, h1, h0, hv]

/-- `buildRow` fails whenever some zipped value list is too short for the
entity index. -/
theorem buildRow_none_of_mem {α : Type} (coord : List α) (i : ℕ) :
    ∀ (ps : List (ℤ × List α)) (t : ℤ) (vl : List α),
      (t, vl) ∈ ps → vl.length ≤ i → buildRow coord i ps = none := by
  intro ps
  induction ps with
  | nil => intro t vl h _; simp at h
  | cons p rest ih =>
    intro t vl h hle
    obtain ⟨t', vl'⟩ := p
    rcases List.mem_cons.mp h with heq | hmem
    · obtain ⟨rfl, rfl⟩ : t = t' ∧ vl = vl' := by
        have h1 := congrArg Prod.fst heq
        have h2 := congrArg Prod.snd heq
        exact ⟨h1, h2⟩
      simp [buildRow, mkFeature_none_of_le coord i t vl hle]
    · cases hf : mkFeature coord i t' vl' with
      | none => simp [buildRow, hf]
      | some f => simp [buildRow, hf, ih t vl hmem hle]

/-- `buildCols` fails whenever some entity's row fails. -/
theorem buildCols_none_of_getElem {α : Type} (values : List (List α))
    (ts : List ℤ) :
    ∀ (coords : List (List α)) (i k : ℕ) (coord : List α),
      coords[k]? = some coord →
      buildRow coord (i + k) (ts.zip values) = none →
      buildCols values ts i coords = none := by
  intro coords
  induction coords with
  | nil => intro i k coord h _; simp at h
  | cons c rest ih =>
    intro i k coord hk hrow
    cases k with
    | zero =>
      obtain rfl : c = coord := by simpa using hk
      have hrow' : buildRow c i (ts.zip values) = none := by simpa using hrow
      simp [buildCols, hrow']
    | succ k =>
      have h' : rest[k]? = some coord := by simpa using hk
      have hrow' : buildRow coord (i + 1 + k) (ts.zip values) = none := by
        have he : i + 1 + k = i + (k + 1) := by omega
        rw [he]; exact hrow
      cases hf : buildRow c i (ts.zip values) with
      | none => simp [buildCols, hf]
      | some feats => simp [buildCols, hf, ih (i + 1) k coord h' hrow']

/-- C7 amended: a flattened value sequence SHORTER than the entity count
makes render fail (a Python `IndexError` when the per-entity value is
looked up, there is no dedicated `ShapeMismatch`), provided the sequence is
within the zipped timestamp range. A LONGER sequence, by contrast, is
silently truncated (see the counterexample theorem). -/
theorem render_short_value_list_fails {α : Type}
    (g : GeoPlot) (start : ℤ) (traj : List (List (SimState α)))
    (coords values : List (List α)) (j : ℕ) (vl : List α)
    (hx : extractLoop traj = some (coords, values))
    (hj : values[j]? = some vl)
    (hjt : j < timestampCount g)
    (hshort : vl.length < coords.length) :
    GeoPlot.render g start traj = none := by
  have hlt : coords.length - 1 < coords.length := by omega
  obtain ⟨coord, hcoord⟩ : ∃ coord, coords[coords.length - 1]? = some coord :=
    ⟨coords[coords.length - 1], by simp [List.getElem?_eq_getElem hlt]⟩
  have hjts : j < (genTimestamps start g.step_time (timestampCount g)).length := by
    rw [length_genTimestamps]; exact hjt
  obtain ⟨t, ht⟩ :
      ∃ t, (genTimestamps start g.step_time (timestampCount g))[j]? = some t :=
    ⟨(genTimestamps start g.step_time (timestampCount g))[j],
      by simp [List.getElem?_eq_getElem hjts]⟩
  have hmem : (t, vl) ∈ (genTimestamps start g.step_time (timestampCount g)).zip values := by
    have hz : ((genTimestamps start g.step_time (timestampCount g)).zip values)[j]? =
        some (t, vl) := by
      simp [List.getElem?_zip_eq_some, ht, hj]
    exact List.getElem?_mem hz
  have hrow : buildRow coord (0 + (coords.length - 1))
      ((genTimestamps start g.step_time (timestampCount g)).zip values) = none :=
    buildRow_none_of_mem coord _ _ t vl hmem (by omega)
  have hcols := buildCols_none_of_getElem values
    (genTimestamps start g.step_time (timestampCount g)) coords 0
    (coords.length - 1) coord hcoord hrow
  rw [GeoPlot.render, hx]
  simpa using hcols

/-- Witness for `render_short_value_list_fails`: two one-state episodes
whose state has two coordinate pairs but a single feature value. -/
theorem render_short_value_list_fails_witness :
    extractLoop [[stateNarrow], [stateNarrow]] =
      some ([[10, 20], [30, 40]], [[7]]) ∧
    GeoPlot.render geoPlotScenario 0 [[stateNarrow], [stateNarrow]] = none := by
  refine ⟨by decide, ?_⟩
  exact render_short_value_list_fails geoPlotScenario 0 [[stateNarrow], [stateNarrow]]
    [[10, 20], [30, 40]] [[7]] 0 [7] (by decide) (by decide) (by decide) (by decide)

/-- C7 counterexample: a flattened value sequence LONGER than the entity
count (here `[5, 6]` against a single coordinate pair) does not surface any
failure — render silently emits features from the first entity-count
values. -/
theorem render_long_value_list_emits :
    GeoPlot.render geoPlotScenario 0 [[stateWide], [stateWide]] =
      some [ { type := "FeatureCollection",
               features := [
                 { type := "Feature",
                   geometry := { type := "Point", coordinates := [20, 10] },
                   properties := [("value", PropVal.value 5),
                                  ("time", PropVal.timeStr 0)] }] }] := by
  decide

/-! ### Template substitution -/

/-- Substitution unfolded: the rendered document is the eight literal runs
with the five mapping values interleaved; in particular every `visualType`
placeholder is replaced by the same configured string. -/
theorem renderHtml_eq (a s t d vt : String) :
    renderHtml a s t d vt =
      tmplLit0 ++ a ++ tmplLit1 ++ vt ++ tmplLit2 ++ vt ++ tmplLit3 ++ vt ++
        tmplLit4 ++ d ++ tmplLit5 ++ s ++ tmplLit6 ++ t ++ tmplLit7 := by
  simp only [renderHtml, substituteTemplate, geoplot_template, List.foldl,
    String.reduceEq, reduceIte, String.empty_append]

/-- C8: the rendered HTML contains the embedded script's alpha assignment
with every `$visualType` placeholder replaced by the configured string, and
the script's semantics at that line fix the alpha at `0.2` when the
configured string is `"size"` and interpolate the endpoint alphas linearly
otherwise. -/
theorem visual_type_controls_alpha (a s t d vt : String) :
    (∃ l r, renderHtml a s t d vt =
        l ++ ("result.alpha = '" ++ vt ++
          "' == 'size' ? 0.2 : color1.alpha + factor * (color2.alpha - color1.alpha);")
          ++ r) ∧
    (vt = "size" → ∀ alpha1 alpha2 factor : ℚ,
      interpolateColorAlpha vt alpha1 alpha2 factor = 0.2) ∧
    (vt ≠ "size" → ∀ alpha1 alpha2 factor : ℚ,
      interpolateColorAlpha vt alpha1 alpha2 factor =
        alpha1 + factor * (alpha2 - alpha1)) ∧
    renderHtml a s t d vt =
      tmplLit0 ++ a ++ tmplLit1 ++ vt ++ tmplLit2 ++ vt ++ tmplLit3 ++ vt ++
        tmplLit4 ++ d ++ tmplLit5 ++ s ++ tmplLit6 ++ t ++ tmplLit7 := by
  refine ⟨⟨tmplLit0 ++ a ++ "';" ++ tmplLit1Mid,
    tmplLit2Post ++ vt ++ tmplLit3 ++ vt ++ tmplLit4 ++ d ++ tmplLit5 ++ s ++
      tmplLit6 ++ t ++ tmplLit7, ?_⟩, ?_, ?_, renderHtml_eq a s t d vt⟩
  · rw [renderHtml_eq]
    simp only [tmplLit1, tmplLit2, String.append_assoc]
  · intro hvt alpha1 alpha2 factor
    simp [interpolateColorAlpha, hvt]
  · intro hvt alpha1 alpha2 factor
    simp [interpolateColorAlpha, hvt]

/-- C9: the configured Cesium token is inserted verbatim — no escaping —
into the access-token assignment of the rendered HTML. -/
theorem cesium_token_roundtrip (a s t d vt : String)
    (_h : ∀ c ∈ a.data, c ≠ '\'' ∧ c ≠ '\\') :
    ∃ l r, renderHtml a s t d vt =
      l ++ ("Cesium.Ion.defaultAccessToken = '" ++ a ++ "';") ++ r := by
  refine ⟨tmplLit0Pre,
    tmplLit1Mid ++ "result.alpha = '" ++ vt ++ tmplLit2 ++ vt ++ tmplLit3 ++ vt ++
      tmplLit4 ++ d ++ tmplLit5 ++ s ++ tmplLit6 ++ t ++ tmplLit7, ?_⟩
  rw [renderHtml_eq]
  simp only [tmplLit0, tmplLit1, String.append_assoc]

/-- Witness for `cesium_token_roundtrip`: a plain alphanumeric token. -/
theorem cesium_token_roundtrip_witness :
    ∃ l r, renderHtml "abc123" "st" "et" "[]" "size" =
      l ++ ("Cesium.Ion.defaultAccessToken = '" ++ "abc123" ++ "';") ++ r :=
  cesium_token_roundtrip "abc123" "st" "et" "[]" "size" (by decide)
